import Mathlib

/-!
Shallow embedding of `src/main.py` (get-apod-wallpaper).

The script is sequential glue: load a JSON config, perform two HTTP GETs,
write two files, set the desktop wallpaper via a Win32 call plus two
registry values, and print a report.  We model each observable external
action as an `Event` and every modelled function returns the list of events
it performs together with a `Res` value that mirrors Python control flow:

* `Res.val a`   – the function returned `a` normally;
* `Res.exc e`   – an ordinary `Exception` (subclass) escaped the function;
* `Res.exit c`  – `exit(c)` was called, i.e. `SystemExit c` is propagating.
  `SystemExit` derives from `BaseException`, not `Exception`, so the
  script's `except Exception:` handler does not catch it.

The outside world (filesystem state of the config file and the two HTTP
responses) is a `World` value; `mainRun` maps a `World` to the full event
trace plus the final process exit code (an uncaught exception makes the
interpreter print a traceback on stderr and exit with code 1).
-/

/-- The six exception shapes the script can raise or mention.
`jsonDecodeError` stands for `json.decoder.JSONDecodeError`,
`keyError k` for `KeyError: k`, `nameError n` for `NameError` on the
unbound variable `n`. -/
inductive PyExc where
  | requestException (msg : String)
  | jsonDecodeError
  | keyError (k : String)
  | fileNotFoundError
  | nameError (n : String)
deriving DecidableEq, Repr

/-- Parsed content of `config/config.json`: the three fields the script
reads (`config['api_key']`, `config['default_wallpaper']`, `config['style']`). -/
structure Config where
  api_key : String
  default_wallpaper : String
  style : String
deriving DecidableEq, Repr

/-- The APOD metadata document: a JSON object modelled as an association
list from keys to string values (the script only ever reads string-valued
fields: `url`, `date`, `title`, `copyright`, `explanation`). -/
structure Metadata where
  entries : List (String × String)
deriving DecidableEq, Repr

def lookupEntry (k : String) : List (String × String) → Option String
  | [] => none
  | (k', v) :: rest => if k' = k then some v else lookupEntry k rest

/-- `m[k]` on the metadata dict: `some v` when present, `none` meaning a
`KeyError` on subscript access. -/
def Metadata.find (m : Metadata) (k : String) : Option String :=
  lookupEntry k m.entries

/-- One observable external action of the script.  `printOut` is a
`print(...)` call on stdout; `printErr` is interpreter output on stderr
(the traceback of an uncaught exception). -/
inductive Event where
  | httpGet (url : String) (apiKey : Option String)
  | writeConfigFile (path : String) (cfg : Config)
  | writeMetaFile (path : String) (m : Metadata)
  | writeImageFile (path : String) (content : String)
  | sysSetWallpaper (absPath : String)
  | regOpenKey
  | regSetValue (name : String) (value : String)
  | printOut (s : String)
  | printErr (s : String)
deriving DecidableEq, Repr

/-- Result of a modelled Python call. -/
inductive Res (α : Type) where
  | val (a : α)
  | exc (e : PyExc)
  | exit (code : Nat)
deriving DecidableEq, Repr

/-- Outcome of the HTTP GET to the APOD metadata endpoint:
`fail` covers `RequestException` (transport error, timeout, or a non-2xx
status surfaced by `raise_for_status`), `badJson` a body `response.json()`
cannot decode, `ok` a decoded metadata document. -/
inductive MetaFetch where
  | fail (msg : String)
  | badJson
  | ok (m : Metadata)
deriving Repr

/-- Outcome of the HTTP GET to an image URL. -/
inductive ImgFetch where
  | fail (msg : String)
  | ok (content : String)
deriving Repr

/-- The environment of one run: the state of the config file
(`none` = file absent; `some none` = present but not valid JSON;
`some (some cfg)` = parses to `cfg`), the metadata-endpoint response and
the image response for each URL. -/
structure World where
  configFile : Option (Option Config)
  metaResp : MetaFetch
  imgResp : String → ImgFetch

def APOD_URL : String := "https://api.nasa.gov/planetary/apod"

def config_path : String := "./config/config.json"

def apod_json_path : String := "data/apod.json"

def apod_image_path : String := "data/apod.jpg"

/-- `os.path.abspath`: modelled as prepending the working directory. -/
def abspath (p : String) : String := "C:\\cwd\\" ++ p

/-- The template written by `create_config`: all three keys empty. -/
def defaultConfig : Config :=
  { api_key := "", default_wallpaper := "", style := "" }

def configHint : String :=
  "Config file has been created in " ++ abspath config_path ++
  ". Complete it and run script again. \n" ++
  "  Hint 1: You can generate NASA API key here: https://api.nasa.gov/ \n" ++
  "  Hint 2: There are 6 available styles: fill, fit, stretch, tile, center, span."

/-- `create_config(config_path)`: dump the template config, print the
operator hint, `exit(0)`. -/
def create_config (p : String) : List Event × Res Unit :=
  ([Event.writeConfigFile p defaultConfig, Event.printOut configHint],
   Res.exit 0)

/-- `get_config(config_path)`: if the file is absent, run `create_config`
(which terminates the process with `exit(0)`); otherwise open and
`json.load` it, raising `JSONDecodeError` on malformed content. -/
def get_config (w : World) (p : String) : List Event × Res Config :=
  match w.configFile with
  | none => ((create_config p).1, Res.exit 0)
  | some none => ([], Res.exc PyExc.jsonDecodeError)
  | some (some cfg) => ([], Res.val cfg)

/-- `get_image(api_key)`: GET the metadata endpoint (printing and
re-raising on `RequestException` / `JSONDecodeError`), look up
`metadata['url']`, dump the metadata to `data/apod.json`, GET the image
URL (printing and re-raising on failure), write `data/apod.jpg`, and
return the image path with the metadata. -/
def get_image (w : World) (api_key : String) : List Event × Res (String × Metadata) :=
  let e1 := Event.httpGet APOD_URL (some api_key)
  match w.metaResp with
  | MetaFetch.fail msg =>
      ([e1, Event.printOut ("Problem with request to APOD: " ++ msg)],
       Res.exc (PyExc.requestException msg))
  | MetaFetch.badJson =>
      ([e1, Event.printOut "Problem with decoding response: "],
       Res.exc PyExc.jsonDecodeError)
  | MetaFetch.ok m =>
      match m.find "url" with
      | none => ([e1], Res.exc (PyExc.keyError "url"))
      | some url =>
          let evs := [e1, Event.writeMetaFile apod_json_path m,
                      Event.httpGet url none]
          match w.imgResp url with
          | ImgFetch.fail msg =>
              (evs ++ [Event.printOut
                 ("Problem with request to download wallpaper: " ++ msg)],
               Res.exc (PyExc.requestException msg))
          | ImgFetch.ok content =>
              (evs ++ [Event.writeImageFile apod_image_path content],
               Res.val (apod_image_path, m))

def styleFail : String :=
  "Chosen style is incorrect! Please, rewrite your config file and get sure, that you have one of " ++
  "the following styles: fill, fit, stretch, tile, center, span."

/-- `set_wallpaper(apod_image_path, style)`: call
`SystemParametersInfoW(20, 0, abspath(path), 0)`, open the
`Control Panel\Desktop` registry key, then the `if/elif` chain writing
`WallpaperStyle` and `TileWallpaper`; on an unrecognized style print the
corrective message and `exit(0)`. -/
def set_wallpaper (p style : String) : List Event × Res Unit :=
  let pre := [Event.sysSetWallpaper (abspath p), Event.regOpenKey]
  if style = "fill" then
    (pre ++ [Event.regSetValue "WallpaperStyle" "10",
             Event.regSetValue "TileWallpaper" "0"], Res.val ())
  else if style = "fit" then
    (pre ++ [Event.regSetValue "WallpaperStyle" "6",
             Event.regSetValue "TileWallpaper" "0"], Res.val ())
  else if style = "stretch" then
    (pre ++ [Event.regSetValue "WallpaperStyle" "2",
             Event.regSetValue "TileWallpaper" "0"], Res.val ())
  else if style = "tile" then
    (pre ++ [Event.regSetValue "WallpaperStyle" "0",
             Event.regSetValue "TileWallpaper" "1"], Res.val ())
  else if style = "center" then
    (pre ++ [Event.regSetValue "WallpaperStyle" "0",
             Event.regSetValue "TileWallpaper" "0"], Res.val ())
  else if style = "span" then
    (pre ++ [Event.regSetValue "WallpaperStyle" "22",
             Event.regSetValue "TileWallpaper" "0"], Res.val ())
  else
    (pre ++ [Event.printOut styleFail], Res.exit 0)

/-- `print_wallpaper_info(metadata)`: subscript `date`, `title`,
`copyright`, `explanation` in that order (a `KeyError` on the first
absent one), then print the header line and the explanation. -/
def print_wallpaper_info (m : Metadata) : List Event × Res Unit :=
  match m.find "date" with
  | none => ([], Res.exc (PyExc.keyError "date"))
  | some date =>
    match m.find "title" with
    | none => ([], Res.exc (PyExc.keyError "title"))
    | some title =>
      match m.find "copyright" with
      | none => ([], Res.exc (PyExc.keyError "copyright"))
      | some copyright =>
        match m.find "explanation" with
        | none => ([], Res.exc (PyExc.keyError "explanation"))
        | some explanation =>
          ([Event.printOut ("[" ++ date ++ "] " ++ title ++ " | " ++ copyright),
            Event.printOut explanation], Res.val ())

def excMsg : PyExc → String
  | PyExc.requestException msg => msg
  | PyExc.jsonDecodeError => "Expecting value"
  | PyExc.keyError k => k
  | PyExc.fileNotFoundError => "No such file or directory"
  | PyExc.nameError n => "name " ++ n ++ " is not defined"

/-- What the interpreter writes on stderr before exiting 1 on an uncaught
exception. -/
def tracebackMsg (e : PyExc) : String :=
  "Traceback (most recent call last): " ++ excMsg e

/-- The `except Exception:` block of `__main__`: run
`set_wallpaper(default_wallpaper_path, style)` — a `SystemExit` from it
propagates — then evaluate `f"Problem with getting APOD image: {e}"`.
The name `e` is unbound in this scope (the handler is a bare
`except Exception:` and the earlier `as e` binding, had it run, ends in
`exit(1)` and is deleted on block exit), so the f-string raises
`NameError: name 'e' is not defined`, which escapes uncaught: the
interpreter prints a traceback and the process exits with code 1. -/
def fallbackRun (acc : List Event) (default_wallpaper_path style : String) :
    List Event × Nat :=
  let r := set_wallpaper default_wallpaper_path style
  match r.2 with
  | Res.exit c => (acc ++ r.1, c)
  | Res.val _ =>
      (acc ++ r.1 ++ [Event.printErr (tracebackMsg (PyExc.nameError "e"))], 1)
  | Res.exc e2 => (acc ++ r.1 ++ [Event.printErr (tracebackMsg e2)], 1)

/-- The `__main__` block.  Note `except FileNotFoundError or JSONDecodeError`
evaluates `FileNotFoundError or JSONDecodeError` to `FileNotFoundError`, so
only `FileNotFoundError` is caught there; a `JSONDecodeError` escapes
uncaught (traceback on stderr, exit code 1).  Result: the full event trace
and the process exit code. -/
def mainRun (w : World) : List Event × Nat :=
  let r1 := get_config w config_path
  match r1.2 with
  | Res.exit c => (r1.1, c)
  | Res.exc e =>
      if e = PyExc.fileNotFoundError then
        (r1.1 ++ [Event.printOut
           ("Problem with reading or decoding config file: " ++ excMsg e)], 1)
      else
        (r1.1 ++ [Event.printErr (tracebackMsg e)], 1)
  | Res.val config =>
      let default_wallpaper_path := config.default_wallpaper
      let style := config.style
      let r2 := get_image w config.api_key
      match r2.2 with
      | Res.exit c => (r1.1 ++ r2.1, c)
      | Res.exc _ => fallbackRun (r1.1 ++ r2.1) default_wallpaper_path style
      | Res.val (img_path, metadata) =>
          let r3 := set_wallpaper img_path style
          match r3.2 with
          | Res.exit c => (r1.1 ++ r2.1 ++ r3.1, c)
          | Res.exc _ =>
              fallbackRun (r1.1 ++ r2.1 ++ r3.1) default_wallpaper_path style
          | Res.val _ =>
              let acc := r1.1 ++ r2.1 ++ r3.1 ++
                [Event.printOut "Wallpaper is set successfully!"]
              let r4 := print_wallpaper_info metadata
              match r4.2 with
              | Res.exit c => (acc ++ r4.1, c)
              | Res.exc _ => fallbackRun (acc ++ r4.1) default_wallpaper_path style
              | Res.val _ => (acc ++ r4.1, 0)

/-! ### Helper predicates on events -/

def isHttpGet : Event → Bool
  | Event.httpGet _ _ => true
  | _ => false

def isRegSet : Event → Bool
  | Event.regSetValue _ _ => true
  | _ => false

def isWriteMeta : Event → Bool
  | Event.writeMetaFile _ _ => true
  | _ => false

def isWriteImage : Event → Bool
  | Event.writeImageFile _ _ => true
  | _ => false

/-- The six recognized style strings. -/
def validStyle (s : String) : Bool :=
  s = "fill" || s = "fit" || s = "stretch" || s = "tile" || s = "center" || s = "span"

/-- The first of the four reporting keys absent from `m`, in the order the
source subscripts them (defaults to `explanation` when the first three are
present). -/
def firstMissing (m : Metadata) : String :=
  if m.find "date" = none then "date"
  else if m.find "title" = none then "title"
  else if m.find "copyright" = none then "copyright"
  else "explanation"

/-! ### Helper lemmas -/

/-- Every run of `set_wallpaper` either hits one of the six recognized
styles (two registry writes, normal return) or the `else` branch
(corrective print, `exit(0)`). -/
theorem set_wallpaper_cases (p s : String) :
    (validStyle s = true ∧ ∃ a b, set_wallpaper p s =
        ([Event.sysSetWallpaper (abspath p), Event.regOpenKey,
          Event.regSetValue "WallpaperStyle" a,
          Event.regSetValue "TileWallpaper" b], Res.val ()))
    ∨ (validStyle s = false ∧ set_wallpaper p s =
        ([Event.sysSetWallpaper (abspath p), Event.regOpenKey,
          Event.printOut styleFail], Res.exit 0)) := by
  unfold set_wallpaper validStyle
  split_ifs with h1 h2 h3 h4 h5 h6
  · exact Or.inl ⟨by simp [h1], "10", "0", rfl⟩
  · exact Or.inl ⟨by simp [h2], "6", "0", rfl⟩
  · exact Or.inl ⟨by simp [h3], "2", "0", rfl⟩
  · exact Or.inl ⟨by simp [h4], "0", "1", rfl⟩
  · exact Or.inl ⟨by simp [h5], "0", "0", rfl⟩
  · exact Or.inl ⟨by simp [h6], "22", "0", rfl⟩
  · exact Or.inr ⟨by simp [h1, h2, h3, h4, h5, h6], rfl⟩

theorem print_wallpaper_info_missing (m : Metadata)
    (habs : m.find "date" = none ∨ m.find "title" = none ∨
            m.find "copyright" = none ∨ m.find "explanation" = none) :
    print_wallpaper_info m = ([], Res.exc (PyExc.keyError (firstMissing m))) := by
  rcases hd : m.find "date" with _ | d
  · simp [print_wallpaper_info, firstMissing, hd]
  · rcases ht : m.find "title" with _ | t
    · simp [print_wallpaper_info, firstMissing, hd, ht]
    · rcases hc : m.find "copyright" with _ | c
      · simp [print_wallpaper_info, firstMissing, hd, ht, hc]
      · rcases he : m.find "explanation" with _ | e
        · simp [print_wallpaper_info, firstMissing, hd, ht, hc, he]
        · simp [hd, ht, hc, he] at habs

theorem single_sublist (y : Event) (l2 l3 : List Event) :
    List.Sublist [y] (l2 ++ y :: l3) := by
  induction l2 with
  | nil => exact List.Sublist.cons₂ y (List.nil_sublist l3)
  | cons a l ih => exact List.Sublist.cons a ih

theorem pair_sublist (x y : Event) (l1 l2 l3 : List Event) :
    List.Sublist [x, y] (l1 ++ x :: (l2 ++ y :: l3)) := by
  induction l1 with
  | nil => exact List.Sublist.cons₂ x (single_sublist y l2 l3)
  | cons a l ih => exact List.Sublist.cons a ih

/-! ### Claims -/

/-- C1: for each of the six recognized styles, `set_wallpaper` writes
exactly the `(WallpaperStyle, TileWallpaper)` string pair of the table —
fill ↦ (10,0), fit ↦ (6,0), stretch ↦ (2,0), tile ↦ (0,1),
center ↦ (0,0), span ↦ (22,0) — into the current-user desktop
configuration store, and returns normally. -/
theorem c1_style_table (p : String) :
    set_wallpaper p "fill" =
      ([Event.sysSetWallpaper (abspath p), Event.regOpenKey,
        Event.regSetValue "WallpaperStyle" "10",
        Event.regSetValue "TileWallpaper" "0"], Res.val ())
    ∧ set_wallpaper p "fit" =
      ([Event.sysSetWallpaper (abspath p), Event.regOpenKey,
        Event.regSetValue "WallpaperStyle" "6",
        Event.regSetValue "TileWallpaper" "0"], Res.val ())
    ∧ set_wallpaper p "stretch" =
      ([Event.sysSetWallpaper (abspath p), Event.regOpenKey,
        Event.regSetValue "WallpaperStyle" "2",
        Event.regSetValue "TileWallpaper" "0"], Res.val ())
    ∧ set_wallpaper p "tile" =
      ([Event.sysSetWallpaper (abspath p), Event.regOpenKey,
        Event.regSetValue "WallpaperStyle" "0",
        Event.regSetValue "TileWallpaper" "1"], Res.val ())
    ∧ set_wallpaper p "center" =
      ([Event.sysSetWallpaper (abspath p), Event.regOpenKey,
        Event.regSetValue "WallpaperStyle" "0",
        Event.regSetValue "TileWallpaper" "0"], Res.val ())
    ∧ set_wallpaper p "span" =
      ([Event.sysSetWallpaper (abspath p), Event.regOpenKey,
        Event.regSetValue "WallpaperStyle" "22",
        Event.regSetValue "TileWallpaper" "0"], Res.val ()) :=
  ⟨rfl, rfl, rfl, rfl, rfl, rfl⟩

/-- World for C2: config parses (style `fill`), the metadata request
fails with message `boom`. -/
def cw2 : World :=
  { configFile := some (some { api_key := "K",
                               default_wallpaper := "C:/default.jpg",
                               style := "fill" }),
    metaResp := MetaFetch.fail "boom",
    imgResp := fun _ => ImgFetch.fail "unused" }

/-- C2: evaluating a full run whose metadata request fails.  The
`except Exception:` handler does apply the fallback wallpaper exactly
once, but then the f-string in its `print` references the unbound name
`e`, so a `NameError` escapes: the process exits with code 1, and the
message `Problem with getting APOD image: boom` is never printed —
contradicting the claim that the original error's message is printed and
the run continues to completion. -/
theorem c2_fallback_handler_raises_nameerror :
    mainRun cw2 =
      ([Event.httpGet APOD_URL (some "K"),
        Event.printOut "Problem with request to APOD: boom",
        Event.sysSetWallpaper (abspath "C:/default.jpg"), Event.regOpenKey,
        Event.regSetValue "WallpaperStyle" "10",
        Event.regSetValue "TileWallpaper" "0",
        Event.printErr (tracebackMsg (PyExc.nameError "e"))], 1) := rfl

/-- C3: when the config file exists but is malformed JSON, `json.load`
raises `JSONDecodeError` (the malformed-configuration error class); the
`except FileNotFoundError or JSONDecodeError` clause only catches
`FileNotFoundError`, so the exception escapes uncaught — the interpreter
prints the traceback and the process exits with code 1, with no HTTP
request, no file write and no wallpaper or registry action in the trace. -/
theorem c3_malformed_config (w : World) (h : w.configFile = some none) :
    mainRun w = ([Event.printErr (tracebackMsg PyExc.jsonDecodeError)], 1)
    ∧ (get_config w config_path).2 = Res.exc PyExc.jsonDecodeError := by
  constructor
  · simp [mainRun, get_config, h]
  · simp [get_config, h]

def cw3 : World :=
  { configFile := some none,
    metaResp := MetaFetch.fail "unused",
    imgResp := fun _ => ImgFetch.fail "unused" }

theorem c3_malformed_config_witness :
    mainRun cw3 = ([Event.printErr (tracebackMsg PyExc.jsonDecodeError)], 1)
    ∧ (get_config cw3 config_path).2 = Res.exc PyExc.jsonDecodeError :=
  c3_malformed_config cw3 rfl

/-- C6: when the config file is absent, the run writes the template
config — exactly the three fields `api_key`, `default_wallpaper`,
`style`, all empty strings — prints the operator hint and exits with
code 0; the trace shows no network call was attempted. -/
theorem c6_missing_config (w : World) (h : w.configFile = none) :
    mainRun w = ([Event.writeConfigFile config_path defaultConfig,
                  Event.printOut configHint], 0)
    ∧ defaultConfig = { api_key := "", default_wallpaper := "", style := "" }
    ∧ (mainRun w).1.filter isHttpGet = [] := by
  refine ⟨?_, rfl, ?_⟩
  · simp [mainRun, get_config, h, create_config]
  · simp [mainRun, get_config, h, create_config, isHttpGet]

def cw6 : World :=
  { configFile := none,
    metaResp := MetaFetch.fail "unused",
    imgResp := fun _ => ImgFetch.fail "unused" }

theorem c6_missing_config_witness :
    mainRun cw6 = ([Event.writeConfigFile config_path defaultConfig,
                    Event.printOut configHint], 0)
    ∧ defaultConfig = { api_key := "", default_wallpaper := "", style := "" }
    ∧ (mainRun cw6).1.filter isHttpGet = [] :=
  c6_missing_config cw6 rfl

/-- C9: for every path and every style string — recognized or not — the
first event of `set_wallpaper` is the `SystemParametersInfoW` call with
the absolute image path: the wallpaper is applied before any style
validation.  In particular with an unrecognized style (`"bogus"`), the
syscall has already happened when the function prints the corrective
message and terminates the process via `exit(0)`. -/
theorem c9_syscall_before_validation (p s : String) :
    (set_wallpaper p s).1.head? = some (Event.sysSetWallpaper (abspath p))
    ∧ set_wallpaper p "bogus" =
        ([Event.sysSetWallpaper (abspath p), Event.regOpenKey,
          Event.printOut styleFail], Res.exit 0) := by
  constructor
  · unfold set_wallpaper
    split_ifs <;> rfl
  · rfl

/-- C4: when the metadata request fails, the trace of the whole run
contains exactly one HTTP GET (the metadata one — the image request is
never attempted), neither the metadata file nor the image file is
written, and the run enters the fallback handler, which applies the
wallpaper at the configured default path with the configured style. -/
theorem c4_meta_failure_no_second_request (w : World) (cfg : Config) (msg : String)
    (hc : w.configFile = some (some cfg)) (hm : w.metaResp = MetaFetch.fail msg) :
    (mainRun w).1.filter isHttpGet = [Event.httpGet APOD_URL (some cfg.api_key)]
    ∧ (mainRun w).1.filter isWriteMeta = []
    ∧ (mainRun w).1.filter isWriteImage = []
    ∧ Event.sysSetWallpaper (abspath cfg.default_wallpaper) ∈ (mainRun w).1
    ∧ mainRun w = fallbackRun
        [Event.httpGet APOD_URL (some cfg.api_key),
         Event.printOut ("Problem with request to APOD: " ++ msg)]
        cfg.default_wallpaper cfg.style := by
  have hmain : mainRun w = fallbackRun
      [Event.httpGet APOD_URL (some cfg.api_key),
       Event.printOut ("Problem with request to APOD: " ++ msg)]
      cfg.default_wallpaper cfg.style := by
    simp [mainRun, get_config, get_image, hc, hm]
  rw [hmain]
  rcases set_wallpaper_cases cfg.default_wallpaper cfg.style with
      ⟨-, a, b, hsw⟩ | ⟨-, hsw⟩ <;>
    simp [fallbackRun, hsw, isHttpGet, isWriteMeta, isWriteImage]

def cw4 : World :=
  { configFile := some (some { api_key := "K4",
                               default_wallpaper := "D:/w.jpg",
                               style := "fit" }),
    metaResp := MetaFetch.fail "down",
    imgResp := fun _ => ImgFetch.fail "unused" }

theorem c4_meta_failure_no_second_request_witness :
    (mainRun cw4).1.filter isHttpGet = [Event.httpGet APOD_URL (some "K4")]
    ∧ (mainRun cw4).1.filter isWriteMeta = []
    ∧ (mainRun cw4).1.filter isWriteImage = []
    ∧ Event.sysSetWallpaper (abspath "D:/w.jpg") ∈ (mainRun cw4).1
    ∧ mainRun cw4 = fallbackRun
        [Event.httpGet APOD_URL (some "K4"),
         Event.printOut ("Problem with request to APOD: " ++ "down")]
        "D:/w.jpg" "fit" :=
  c4_meta_failure_no_second_request cw4
    { api_key := "K4", default_wallpaper := "D:/w.jpg", style := "fit" }
    "down" rfl rfl

/-- C5: when the image download fails after the metadata file was
written, the fallback wallpaper application still runs (the default
path's wallpaper syscall is in the trace), while the trace holds exactly
the one metadata-file write — nothing later touches or removes it — and
no image-file write, so the persisted metadata references an image never
downloaded. -/
theorem c5_img_failure_keeps_metadata (w : World) (cfg : Config) (m : Metadata)
    (url msg : String)
    (hc : w.configFile = some (some cfg)) (hm : w.metaResp = MetaFetch.ok m)
    (hu : m.find "url" = some url) (hi : w.imgResp url = ImgFetch.fail msg) :
    (mainRun w).1.filter isWriteMeta = [Event.writeMetaFile apod_json_path m]
    ∧ (mainRun w).1.filter isWriteImage = []
    ∧ Event.sysSetWallpaper (abspath cfg.default_wallpaper) ∈ (mainRun w).1
    ∧ mainRun w = fallbackRun
        [Event.httpGet APOD_URL (some cfg.api_key),
         Event.writeMetaFile apod_json_path m, Event.httpGet url none,
         Event.printOut ("Problem with request to download wallpaper: " ++ msg)]
        cfg.default_wallpaper cfg.style := by
  have hmain : mainRun w = fallbackRun
      [Event.httpGet APOD_URL (some cfg.api_key),
       Event.writeMetaFile apod_json_path m, Event.httpGet url none,
       Event.printOut ("Problem with request to download wallpaper: " ++ msg)]
      cfg.default_wallpaper cfg.style := by
    simp [mainRun, get_config, get_image, hc, hm, hu, hi]
  rw [hmain]
  rcases set_wallpaper_cases cfg.default_wallpaper cfg.style with
      ⟨-, a, b, hsw⟩ | ⟨-, hsw⟩ <;>
    simp [fallbackRun, hsw, isWriteMeta, isWriteImage]

def md5 : Metadata :=
  { entries := [("url", "http://x/i.jpg"), ("date", "2024-01-01")] }

def cw5 : World :=
  { configFile := some (some { api_key := "K5",
                               default_wallpaper := "D:/w5.jpg",
                               style := "span" }),
    metaResp := MetaFetch.ok md5,
    imgResp := fun _ => ImgFetch.fail "404" }

theorem c5_img_failure_keeps_metadata_witness :
    (mainRun cw5).1.filter isWriteMeta = [Event.writeMetaFile apod_json_path md5]
    ∧ (mainRun cw5).1.filter isWriteImage = []
    ∧ Event.sysSetWallpaper (abspath "D:/w5.jpg") ∈ (mainRun cw5).1
    ∧ mainRun cw5 = fallbackRun
        [Event.httpGet APOD_URL (some "K5"),
         Event.writeMetaFile apod_json_path md5,
         Event.httpGet "http://x/i.jpg" none,
         Event.printOut ("Problem with request to download wallpaper: " ++ "404")]
        "D:/w5.jpg" "span" :=
  c5_img_failure_keeps_metadata cw5
    { api_key := "K5", default_wallpaper := "D:/w5.jpg", style := "span" }
    md5 "http://x/i.jpg" "404" rfl rfl rfl rfl

/-- C7: on an unrecognized style, `set_wallpaper` prints the corrective
message naming the six valid styles and raises `SystemExit 0`; in a full
run reaching it, no `WallpaperStyle`/`TileWallpaper` registry value is
ever written and the process exit code is 0 (`except Exception:` does not
catch `SystemExit`). -/
theorem c7_invalid_style_no_registry_write (w : World) (cfg : Config)
    (m : Metadata) (url content : String)
    (hc : w.configFile = some (some cfg)) (hs : validStyle cfg.style = false)
    (hm : w.metaResp = MetaFetch.ok m) (hu : m.find "url" = some url)
    (hi : w.imgResp url = ImgFetch.ok content) :
    set_wallpaper apod_image_path cfg.style =
      ([Event.sysSetWallpaper (abspath apod_image_path), Event.regOpenKey,
        Event.printOut styleFail], Res.exit 0)
    ∧ (mainRun w).1.filter isRegSet = []
    ∧ Event.printOut styleFail ∈ (mainRun w).1
    ∧ (mainRun w).2 = 0 := by
  have hsw : set_wallpaper apod_image_path cfg.style =
      ([Event.sysSetWallpaper (abspath apod_image_path), Event.regOpenKey,
        Event.printOut styleFail], Res.exit 0) := by
    rcases set_wallpaper_cases apod_image_path cfg.style with ⟨hv, -⟩ | ⟨-, h⟩
    · rw [hv] at hs; cases hs
    · exact h
  have hmain : mainRun w =
      ([Event.httpGet APOD_URL (some cfg.api_key),
        Event.writeMetaFile apod_json_path m, Event.httpGet url none,
        Event.writeImageFile apod_image_path content,
        Event.sysSetWallpaper (abspath apod_image_path), Event.regOpenKey,
        Event.printOut styleFail], 0) := by
    simp [mainRun, get_config, get_image, hc, hm, hu, hi, hsw]
  refine ⟨hsw, ?_, ?_, ?_⟩ <;> rw [hmain] <;> simp [isRegSet]

def md7 : Metadata := { entries := [("url", "http://x/7.jpg")] }

def cw7 : World :=
  { configFile := some (some { api_key := "K7",
                               default_wallpaper := "D:/w7.jpg",
                               style := "zoom" }),
    metaResp := MetaFetch.ok md7,
    imgResp := fun _ => ImgFetch.ok "JPEGBYTES" }

theorem c7_invalid_style_no_registry_write_witness :
    set_wallpaper apod_image_path "zoom" =
      ([Event.sysSetWallpaper (abspath apod_image_path), Event.regOpenKey,
        Event.printOut styleFail], Res.exit 0)
    ∧ (mainRun cw7).1.filter isRegSet = []
    ∧ Event.printOut styleFail ∈ (mainRun cw7).1
    ∧ (mainRun cw7).2 = 0 :=
  c7_invalid_style_no_registry_write cw7
    { api_key := "K7", default_wallpaper := "D:/w7.jpg", style := "zoom" }
    md7 "http://x/7.jpg" "JPEGBYTES" rfl rfl rfl rfl rfl

/-- C8: with all four of `date`, `title`, `copyright`, `explanation`
present, the reporter prints exactly the header `[date] title | copyright`
followed by the explanation and returns normally; on a document missing
any of the four, it performs no print and raises a `KeyError` (the
key-lookup / `MissingFieldError` class) for the first absent key. -/
theorem c8_report_format_and_missing_key (m m' : Metadata) (d t c e : String)
    (hd : m.find "date" = some d) (ht : m.find "title" = some t)
    (hc : m.find "copyright" = some c) (he : m.find "explanation" = some e)
    (habs : m'.find "date" = none ∨ m'.find "title" = none ∨
            m'.find "copyright" = none ∨ m'.find "explanation" = none) :
    print_wallpaper_info m =
      ([Event.printOut ("[" ++ d ++ "] " ++ t ++ " | " ++ c),
        Event.printOut e], Res.val ())
    ∧ print_wallpaper_info m' = ([], Res.exc (PyExc.keyError (firstMissing m'))) := by
  constructor
  · simp [print_wallpaper_info, hd, ht, hc, he]
  · exact print_wallpaper_info_missing m' habs

def md8a : Metadata :=
  { entries := [("date", "2024-01-01"), ("title", "T"),
                ("copyright", "C"), ("explanation", "E")] }

def md8b : Metadata :=
  { entries := [("date", "2024-01-01"), ("title", "T"), ("explanation", "E")] }

theorem c8_report_format_and_missing_key_witness :
    print_wallpaper_info md8a =
      ([Event.printOut ("[" ++ "2024-01-01" ++ "] " ++ "T" ++ " | " ++ "C"),
        Event.printOut "E"], Res.val ())
    ∧ print_wallpaper_info md8b =
        ([], Res.exc (PyExc.keyError (firstMissing md8b))) :=
  c8_report_format_and_missing_key md8a md8b "2024-01-01" "T" "C" "E"
    rfl rfl rfl rfl (Or.inr (Or.inr (Or.inl rfl)))

/-- C10: when the APOD image was fetched and applied (valid style) but
the reporting step raises a `KeyError` (a display field is missing), the
top-level handler still runs the fallback: the trace applies the APOD
wallpaper first and the configured default wallpaper later (in that
order), after the success message was already printed; the run then ends
with exit code 1 from the handler's own `NameError`. -/
theorem c10_report_failure_triggers_fallback (w : World) (cfg : Config)
    (m : Metadata) (url content : String)
    (hc : w.configFile = some (some cfg)) (hv : validStyle cfg.style = true)
    (hm : w.metaResp = MetaFetch.ok m) (hu : m.find "url" = some url)
    (hi : w.imgResp url = ImgFetch.ok content)
    (habs : m.find "date" = none ∨ m.find "title" = none ∨
            m.find "copyright" = none ∨ m.find "explanation" = none) :
    List.Sublist [Event.sysSetWallpaper (abspath apod_image_path),
                  Event.sysSetWallpaper (abspath cfg.default_wallpaper)]
      (mainRun w).1
    ∧ Event.printOut "Wallpaper is set successfully!" ∈ (mainRun w).1
    ∧ (mainRun w).2 = 1 := by
  obtain ⟨a, b, hsw⟩ : ∃ a b, set_wallpaper apod_image_path cfg.style =
      ([Event.sysSetWallpaper (abspath apod_image_path), Event.regOpenKey,
        Event.regSetValue "WallpaperStyle" a,
        Event.regSetValue "TileWallpaper" b], Res.val ()) := by
    rcases set_wallpaper_cases apod_image_path cfg.style with ⟨-, a, b, h⟩ | ⟨hinv, -⟩
    · exact ⟨a, b, h⟩
    · rw [hinv] at hv; cases hv
  obtain ⟨a', b', hsw'⟩ : ∃ a b, set_wallpaper cfg.default_wallpaper cfg.style =
      ([Event.sysSetWallpaper (abspath cfg.default_wallpaper), Event.regOpenKey,
        Event.regSetValue "WallpaperStyle" a,
        Event.regSetValue "TileWallpaper" b], Res.val ()) := by
    rcases set_wallpaper_cases cfg.default_wallpaper cfg.style with ⟨-, a, b, h⟩ | ⟨hinv, -⟩
    · exact ⟨a, b, h⟩
    · rw [hinv] at hv; cases hv
  have hpi := print_wallpaper_info_missing m habs
  have hmain : mainRun w =
      ([Event.httpGet APOD_URL (some cfg.api_key),
        Event.writeMetaFile apod_json_path m, Event.httpGet url none,
        Event.writeImageFile apod_image_path content,
        Event.sysSetWallpaper (abspath apod_image_path), Event.regOpenKey,
        Event.regSetValue "WallpaperStyle" a, Event.regSetValue "TileWallpaper" b,
        Event.printOut "Wallpaper is set successfully!",
        Event.sysSetWallpaper (abspath cfg.default_wallpaper), Event.regOpenKey,
        Event.regSetValue "WallpaperStyle" a', Event.regSetValue "TileWallpaper" b',
        Event.printErr (tracebackMsg (PyExc.nameError "e"))], 1) := by
    simp [mainRun, get_config, get_image, fallbackRun, hc, hm, hu, hi, hsw, hsw', hpi]
  refine ⟨?_, ?_, ?_⟩
  · rw [hmain]
    exact pair_sublist (Event.sysSetWallpaper (abspath apod_image_path))
      (Event.sysSetWallpaper (abspath cfg.default_wallpaper))
      [Event.httpGet APOD_URL (some cfg.api_key),
       Event.writeMetaFile apod_json_path m, Event.httpGet url none,
       Event.writeImageFile apod_image_path content]
      [Event.regOpenKey, Event.regSetValue "WallpaperStyle" a,
       Event.regSetValue "TileWallpaper" b,
       Event.printOut "Wallpaper is set successfully!"]
      [Event.regOpenKey, Event.regSetValue "WallpaperStyle" a',
       Event.regSetValue "TileWallpaper" b',
       Event.printErr (tracebackMsg (PyExc.nameError "e"))]
  · rw [hmain]; simp
  · rw [hmain]

def md10 : Metadata :=
  { entries := [("url", "http://x/10.jpg"), ("date", "2024-01-01"),
                ("title", "T"), ("explanation", "E")] }

def cw10 : World :=
  { configFile := some (some { api_key := "KA",
                               default_wallpaper := "D:/w10.jpg",
                               style := "center" }),
    metaResp := MetaFetch.ok md10,
    imgResp := fun _ => ImgFetch.ok "IMG10" }

theorem c10_report_failure_triggers_fallback_witness :
    List.Sublist [Event.sysSetWallpaper (abspath apod_image_path),
                  Event.sysSetWallpaper (abspath "D:/w10.jpg")]
      (mainRun cw10).1
    ∧ Event.printOut "Wallpaper is set successfully!" ∈ (mainRun cw10).1
    ∧ (mainRun cw10).2 = 1 :=
  c10_report_failure_triggers_fallback cw10
    { api_key := "KA", default_wallpaper := "D:/w10.jpg", style := "center" }
    md10 "http://x/10.jpg" "IMG10" rfl rfl rfl rfl rfl
    (Or.inr (Or.inr (Or.inl rfl)))
